import Mathlib

/-
Verification of the data-access workflow engine demonstrated by
notebooks/02-Data_Access.ipynb.  The notebook is tutorial content calling the
icepyx client; the client implementation itself is not part of the sources, so
the workflow engine (query building, search caching, variable subsetting,
order submission and resumable download) is modelled from the specification
and checked against the concrete values the notebook supplies.
-/

namespace Icepyx

/-- Modelled from the spec: the request mode of an order submission
(`request_mode` key, asynchronous by default, synchronous streams output). -/
inductive RequestMode
  | async
  | sync
deriving DecidableEq, Repr

/-- Modelled from the spec: the hard page-size ceiling enforced per request
mode, 2000 granules for asynchronous mode and 100 for synchronous mode. -/
def pageSizeCeiling : RequestMode → Nat
  | .async => 2000
  | .sync => 100

/-- Modelled from the spec: the error taxonomy of the workflow engine. -/
inductive WorkflowError
  | InvalidExtent
  | InvalidVersion
  | AuthenticationFailed
  | SessionExpired
  | CatalogUnavailable
  | PageSizeExceeded
  | OrderFailed
  | DownloadIncomplete
deriving DecidableEq, Repr

/-- Modelled from the spec: an outgoing network request of the workflow
engine (only the operations the claims need are distinguished). -/
inductive NetRequest
  | searchPage (pageIndex : Nat)
  | orderSubmission (granuleIDs : List String)
  | payloadFetch (orderID : String)
deriving DecidableEq, Repr

/-! ### Query parameter building (Icesat2Data construction, CMRparams) -/

/-- Modelled from the spec: default start time of day applied when no
`start_time` input is given. -/
def defaultStartTime : String := "00:00:00"

/-- Modelled from the spec: default end time of day applied when no
`end_time` input is given. -/
def defaultEndTime : String := "23:59:59"

/-- Modelled from the spec: the catalog query parameter set (CMR parameters)
built from the dataset short name, the bounding-box spatial extent and the
temporal range. -/
structure CMRparams where
  short_name : String
  bounding_box : List ℚ
  temporal_start : String
  temporal_end : String
deriving DecidableEq, Repr

/-- Modelled from the spec: the pure query-parameter builder combining the
dataset selector, spatial extent and temporal extent into the CMR parameter
set; composed timestamps take the form `date` `T` `time`, with the default
times of day substituted when none are given. -/
def buildCMRparams (short_name : String) (spatial_extent : List ℚ)
    (date_range : String × String)
    (start_time end_time : Option String) : CMRparams :=
  { short_name := short_name
    bounding_box := spatial_extent
    temporal_start := date_range.1 ++ "T" ++ start_time.getD defaultStartTime
    temporal_end := date_range.2 ++ "T" ++ end_time.getD defaultEndTime }

/-! ### Order submission page-size validation (reqparams) -/

/-- Modelled from the spec: pagination of the granule ID list into pages
bounded by the configured page size. -/
def paginate (page_size : Nat) (granuleIDs : List String) : List (List String) :=
  List.toChunks page_size granuleIDs

/-- Modelled from the spec: order submission partitions the granule list into
pages and submits one order request per page, but a page size exceeding the
mode-specific ceiling fails fast with `PageSizeExceeded` before any request
is sent.  The result carries the list of network requests issued. -/
def order (mode : RequestMode) (page_size : Nat) (granuleIDs : List String) :
    Except WorkflowError (List (List String)) × List NetRequest :=
  if page_size > pageSizeCeiling mode then
    (.error .PageSizeExceeded, [])
  else
    let pages := paginate page_size granuleIDs
    (.ok pages, pages.map (fun pg => NetRequest.orderSubmission pg))

/-! ### Temporal extent construction -/

/-- Modelled from the spec: a calendar date (year, month, day). -/
structure Date where
  year : Nat
  month : Nat
  day : Nat
deriving DecidableEq, Repr

/-- Modelled from the spec: a time of day (hour, minute, second). -/
structure Time where
  hour : Nat
  minute : Nat
  second : Nat
deriving DecidableEq, Repr

/-- Modelled from the spec: the composed instant of a date plus a time of
day, encoded as a single natural number that orders instants
chronologically. -/
def instantKey (d : Date) (t : Time) : Nat :=
  ((d.year * 400 + d.month) * 40 + d.day) * 100000 +
    (t.hour * 3600 + t.minute * 60 + t.second)

/-- Modelled from the spec: a validated temporal extent with canonical start
and end timestamps. -/
structure TemporalExtent where
  start_date : Date
  end_date : Date
  start_time : Time
  end_time : Time
deriving DecidableEq, Repr

/-- Modelled from the spec: construction of a TemporalExtent from a date
range plus optional start and end times of day (defaulting to 00:00:00 and
23:59:59); when the composed start instant is strictly after the composed
end instant the construction fails with `InvalidExtent`.  The result carries
the list of network requests issued, which is empty on every path since
extent validation is purely local. -/
def mkTemporalExtent (sd ed : Date) (st et : Option Time) :
    Except WorkflowError TemporalExtent × List NetRequest :=
  let s := st.getD ⟨0, 0, 0⟩
  let e := et.getD ⟨23, 59, 59⟩
  if instantKey sd s > instantKey ed e then
    (.error .InvalidExtent, [])
  else
    (.ok ⟨sd, ed, s, e⟩, [])

/-! ### Catalog search (avail_granules) -/

/-- Modelled from the spec: a granule record accumulated from catalog search
pages. -/
structure Granule where
  producer_granule_id : String
  size_mb : ℚ
deriving DecidableEq, Repr

/-- Modelled from the spec: the catalog service response for one search
page: either a page of granules together with a flag telling whether further
pages exist, or a failure once the bounded per-page retries are
exhausted. -/
inductive PageResp
  | page (granules : List Granule) (more : Bool)
  | failure
deriving DecidableEq, Repr

/-- Modelled from the spec: paginated catalog search issuing one request per
page from the given index, accumulating granules until the service reports
no further pages or the safety cap (fuel) is hit; a failed page surfaces
`CatalogUnavailable`.  The result carries the network requests issued. -/
def fetchPages (pages : Nat → PageResp) :
    Nat → Nat → Except WorkflowError (List Granule) × List NetRequest
  | 0, _ => (.ok [], [])
  | fuel + 1, i =>
    match pages i with
    | .failure => (.error .CatalogUnavailable, [.searchPage i])
    | .page gs more =>
      if more then
        let rest := fetchPages pages fuel (i + 1)
        (rest.1.map (fun t => gs ++ t), .searchPage i :: rest.2)
      else
        (.ok gs, [.searchPage i])

/-- Modelled from the spec: the per-query cache of search results stored
within the data object after a successful search. -/
structure GranuleCache where
  cached : Option (List Granule)
deriving DecidableEq, Repr

/-- Modelled from the spec: `avail_granules` serves repeated calls with
unchanged parameters from the cached result set without re-querying, unless
a refresh is explicitly forced; a fresh search runs the paginated fetch and
caches the granules on success. -/
def avail_granules (pages : Nat → PageResp) (fuel : Nat) (force : Bool)
    (c : GranuleCache) :
    Except WorkflowError (List Granule) × GranuleCache × List NetRequest :=
  match c.cached, force with
  | some gs, false => (.ok gs, c, [])
  | _, _ =>
    let res := fetchPages pages fuel 0
    match res.1 with
    | .ok gs => (.ok gs, ⟨some gs⟩, res.2)
    | .error e => (.error e, c, res.2)

/-! ### Variable subsetting (order_vars wanted list) -/

/-- Modelled from the spec: the structurally required variables — time and
spacecraft orientation — auto-included whenever any variable is added, and
not removable individually (only a full reset clears them).  A variable path
is modelled as a (beam or group, variable name) pair keyed by the full
path. -/
def structuralVars : Finset (String × String) :=
  {("ancillary_data", "time"), ("orbit_info", "orientation")}

/-- Modelled from the spec: whether an available path matches a var_list and
beam_list filter pair — exact variable name when var_list is given,
restricted to the given beams when beam_list is given; combining filters
intersects constraints, and an absent (empty) filter does not constrain. -/
def matchesPair (var_list beam_list : List String) (p : String × String) : Bool :=
  (var_list.isEmpty || var_list.contains p.2) &&
    (beam_list.isEmpty || beam_list.contains p.1)

/-- Modelled from the spec: the available paths selected by a var_list and
beam_list pair. -/
def matchedPaths (avail : Finset (String × String))
    (var_list beam_list : List String) : Finset (String × String) :=
  avail.filter (fun p => matchesPair var_list beam_list p)

/-- Modelled from the spec: `order_vars.append` adds matching available
paths to the wanted set, auto-including the structural variables whenever
any variable is added. -/
def appendVars (avail : Finset (String × String))
    (var_list beam_list : List String)
    (wanted : Finset (String × String)) : Finset (String × String) :=
  let m := matchedPaths avail var_list beam_list
  if m = ∅ then wanted else wanted ∪ m ∪ structuralVars

/-- Modelled from the spec: `order_vars.remove` removes matching entries
from the wanted set using the same matching semantics, except the structural
variables, which are not removable individually. -/
def removeVars (var_list beam_list : List String)
    (wanted : Finset (String × String)) : Finset (String × String) :=
  wanted.filter
    (fun p => matchesPair var_list beam_list p = false ∨ p ∈ structuralVars)

/-! ### Download manager (download_granules with resume) -/

/-- Modelled from the spec: a completed order ready for retrieval, with the
number of files its payload unpacks to. -/
structure CompletedOrder where
  oid : String
  nfiles : Nat
deriving DecidableEq, Repr

/-- Modelled from the spec: an observable download-side action — fetching an
order payload or unpacking it into the target directory. -/
inductive DlAction
  | fetch (oid : String)
  | unpack (oid : String)
deriving DecidableEq, Repr

/-- Modelled from the spec: download state — the durable manifest of order
ids already fully retrieved and unpacked, and the number of files unpacked
so far per order in the target directory (partially downloaded orders have
fewer local files than the order holds). -/
structure DlState where
  manifest : List String
  localFiles : String → Nat

/-- Modelled from the spec: retrieval of one completed order.  Under
resume=True an order recorded in the manifest is skipped entirely (no
fetch, no unpack); any other order — including a partially downloaded one —
is re-fetched from scratch in its entirety: its payload is fetched, all of
its files are unpacked, and the order is recorded in the manifest. -/
def downloadOne (resume : Bool) (st : DlState) (o : CompletedOrder) :
    List DlAction × DlState :=
  if resume = true ∧ o.oid ∈ st.manifest then
    ([], st)
  else
    ([.fetch o.oid, .unpack o.oid],
      { manifest := o.oid :: st.manifest
        localFiles := fun i => if i = o.oid then o.nfiles else st.localFiles i })

/-- Modelled from the spec: download over a set of completed orders,
processing each order in turn and threading the download state. -/
def downloadAll (resume : Bool) (st : DlState) :
    List CompletedOrder → List DlAction × DlState
  | [] => ([], st)
  | o :: os =>
    let first := downloadOne resume st o
    let rest := downloadAll resume first.2 os
    (first.1 ++ rest.1, rest.2)

/-! ### Dataset version resolution -/

/-- Modelled from the spec: resolution of the user-supplied dataset version
against the known versions of the short name.  An unknown version is
non-fatal: the build falls back to the latest known version and surfaces an
`InvalidVersion` warning; a missing version defaults to the latest. -/
def resolveVersion (known : List String) (latest : String)
    (version : Option String) : String × List WorkflowError :=
  match version with
  | none => (latest, [])
  | some v => if v ∈ known then (v, []) else (latest, [.InvalidVersion])

/-! ### Workflow object (Icesat2Data): ordering and downloading -/

/-- Modelled from the spec: the variables parameter of the data object —
the available paths and the user-editable wanted set. -/
structure OrderVars where
  avail : Finset (String × String)
  wanted : Finset (String × String)
deriving DecidableEq

/-- Modelled from the spec: the stateful data object driving the workflow —
query parameters, required order configuration, session flag, search
results, placed orders and downloads. -/
structure WorkflowState where
  cmr : CMRparams
  page_size : Nat
  request_mode : RequestMode
  loggedIn : Bool
  granuleIDs : List String
  orderIDs : List Nat
  downloaded : List Nat
  order_vars : OrderVars
deriving DecidableEq

/-- Modelled from the spec: the subset parameters submitted with an order —
temporal and spatial re-filter derived from the query, plus the
wanted-variables coverage list exactly when it is explicitly passed as the
Coverage keyword argument. -/
structure SubsetParams where
  temporal_start : String
  temporal_end : String
  bbox : List ℚ
  coverage : Option (Finset (String × String))
deriving DecidableEq

/-- Modelled from the spec: `subsetparams` builds the default subset
parameters from the query inputs; the wanted-variable set is included only
through the explicit Coverage keyword argument. -/
def subsetparams (s : WorkflowState) (Coverage : Option (Finset (String × String))) :
    SubsetParams :=
  { temporal_start := s.cmr.temporal_start
    temporal_end := s.cmr.temporal_end
    bbox := s.cmr.bounding_box
    coverage := Coverage }

/-- Modelled from the spec: one submitted order request — CMR filter
parameters, required configuration parameters, the page of granule ids, and
the subset parameters. -/
structure OrderRequest where
  cmr : CMRparams
  page_size : Nat
  request_mode : RequestMode
  granules : List String
  subset : SubsetParams
deriving DecidableEq

/-- Modelled from the spec: `order_granules` requires an authenticated
session, partitions the found granule ids into pages and submits one order
request per page, recording one order id per page; it returns the updated
object and the submitted order requests. -/
def order_granules (s : WorkflowState)
    (Coverage : Option (Finset (String × String))) :
    WorkflowState × List OrderRequest :=
  if s.loggedIn = false then (s, [])
  else
    let pages := paginate s.page_size s.granuleIDs
    let reqs := pages.map (fun pg =>
      { cmr := s.cmr
        page_size := s.page_size
        request_mode := s.request_mode
        granules := pg
        subset := subsetparams s Coverage : OrderRequest })
    ({ s with orderIDs := List.range pages.length }, reqs)

/-- Modelled from the spec: `download_granules` calls `order_granules` under
the hood with the same parameters when no order has yet been placed, then
retrieves every placed order; it returns the updated object and the order
requests it submitted on the way. -/
def download_granules (s : WorkflowState)
    (Coverage : Option (Finset (String × String))) :
    WorkflowState × List OrderRequest :=
  let placed := if s.orderIDs.isEmpty then order_granules s Coverage else (s, [])
  ({ placed.1 with downloaded := placed.1.orderIDs }, placed.2)

/-- Concrete data object mirroring the notebook inputs (Pine Island
Glacier query, defaults for page size and request mode, logged in, two
found granules, no order placed yet). -/
def sampleWorkflow : WorkflowState :=
  { cmr := buildCMRparams "ATL06" [-102, -76, -98, -74.5]
      ("2019-06-18", "2019-06-25") none none
    page_size := 10
    request_mode := .async
    loggedIn := true
    granuleIDs := ["ATL06_g1", "ATL06_g2"]
    orderIDs := []
    downloaded := []
    order_vars := ⟨∅, ∅⟩ }

end Icepyx

namespace Icepyx

/-- C2: whenever the requested page size exceeds the ceiling of the request
mode (2000 asynchronous, 100 synchronous), order submission fails with
`PageSizeExceeded` and the list of issued network requests is empty. -/
theorem order_pageSizeExceeded (mode : RequestMode) (page_size : Nat)
    (granuleIDs : List String) (h : page_size > pageSizeCeiling mode) :
    order mode page_size granuleIDs =
      (.error WorkflowError.PageSizeExceeded, []) := by
  simp [order, h]

/-- C2 witness: page_size 2001 in asynchronous mode and page_size 101 in
synchronous mode are both rejected with no request issued. -/
theorem order_pageSizeExceeded_witness :
    (2001 > pageSizeCeiling RequestMode.async ∧
      order RequestMode.async 2001 ["g1"] =
        (.error WorkflowError.PageSizeExceeded, [])) ∧
    (101 > pageSizeCeiling RequestMode.sync ∧
      order RequestMode.sync 101 ["g1"] =
        (.error WorkflowError.PageSizeExceeded, [])) :=
  ⟨⟨by decide, order_pageSizeExceeded RequestMode.async 2001 ["g1"] (by decide)⟩,
   ⟨by decide, order_pageSizeExceeded RequestMode.sync 101 ["g1"] (by decide)⟩⟩

/-- C5: for short_name ATL06, bounding box [-102, -76, -98, -74.5] and date
range 2019-06-18 to 2019-06-25 with no start or end time given, the built CMR
parameter set carries the dataset short name, the four bounding coordinates
and the temporal range 2019-06-18T00:00:00 to 2019-06-25T23:59:59, the
default times having been applied. -/
theorem buildCMRparams_ATL06 :
    buildCMRparams "ATL06" [-102, -76, -98, -74.5]
        ("2019-06-18", "2019-06-25") none none =
      { short_name := "ATL06"
        bounding_box := [-102, -76, -98, -74.5]
        temporal_start := "2019-06-18T00:00:00"
        temporal_end := "2019-06-25T23:59:59" } := rfl

/-- C7: for every temporal range whose composed start instant is strictly
after its composed end instant, construction of the TemporalExtent fails
with `InvalidExtent` and no network request is issued. -/
theorem mkTemporalExtent_invalid (sd ed : Date) (st et : Option Time)
    (h : instantKey sd (st.getD ⟨0, 0, 0⟩) > instantKey ed (et.getD ⟨23, 59, 59⟩)) :
    mkTemporalExtent sd ed st et = (.error WorkflowError.InvalidExtent, []) := by
  simp [mkTemporalExtent, h]

/-- C7 witness: a range running from 2019-06-25 back to 2019-06-18 is
rejected with `InvalidExtent` and issues no network request. -/
theorem mkTemporalExtent_invalid_witness :
    instantKey ⟨2019, 6, 25⟩ ((none : Option Time).getD ⟨0, 0, 0⟩) >
        instantKey ⟨2019, 6, 18⟩ ((none : Option Time).getD ⟨23, 59, 59⟩) ∧
      mkTemporalExtent ⟨2019, 6, 25⟩ ⟨2019, 6, 18⟩ none none =
        (.error WorkflowError.InvalidExtent, []) :=
  ⟨by decide, mkTemporalExtent_invalid ⟨2019, 6, 25⟩ ⟨2019, 6, 18⟩ none none (by decide)⟩

/-- C6: for every dataset selector whose given version is not among the known
versions of the short name, the build does not fail: it returns the latest
version together with a non-fatal `InvalidVersion` warning. -/
theorem resolveVersion_unknown (known : List String) (latest v : String)
    (h : v ∉ known) :
    resolveVersion known latest (some v) =
      (latest, [WorkflowError.InvalidVersion]) := by
  simp [resolveVersion, h]

/-- C3: when a first `avail_granules` call over a fixed query succeeds, a
second call with no intervening mutation and no forced refresh returns the
identical granule set, leaves the cache unchanged and issues no network
request. -/
theorem avail_granules_idempotent (pages : Nat → PageResp) (fuel : Nat)
    (c : GranuleCache) (gs : List Granule) (c1 : GranuleCache)
    (reqs : List NetRequest)
    (h : avail_granules pages fuel false c = (.ok gs, c1, reqs)) :
    avail_granules pages fuel false c1 = (.ok gs, c1, []) := by
  rcases hc : c.cached with _ | gs0
  · rcases hf : fetchPages pages fuel 0 with ⟨r, reqs2⟩
    cases r with
    | ok gs2 =>
      simp [avail_granules, hc, hf] at h
      obtain ⟨h1, h2, _⟩ := h
      subst h1
      subst h2
      simp [avail_granules]
    | error e =>
      simp [avail_granules, hc, hf] at h
  · simp [avail_granules, hc] at h
    obtain ⟨h1, h2, _⟩ := h
    subst h1
    rw [← h2]
    simp [avail_granules, hc]

/-- C3 witness: a catalog answering one single-granule page; the first call
caches the granule, and the second call returns the identical set with an
empty request list. -/
theorem avail_granules_idempotent_witness :
    avail_granules (fun _ => PageResp.page [⟨"G1", 10⟩] false) 5 false ⟨none⟩ =
        (.ok [⟨"G1", 10⟩], ⟨some [⟨"G1", 10⟩]⟩, [.searchPage 0]) ∧
      avail_granules (fun _ => PageResp.page [⟨"G1", 10⟩] false) 5 false
          ⟨some [⟨"G1", 10⟩]⟩ =
        (.ok [⟨"G1", 10⟩], ⟨some [⟨"G1", 10⟩]⟩, []) :=
  ⟨rfl, avail_granules_idempotent _ 5 ⟨none⟩ _ _ [.searchPage 0] rfl⟩

/-- C8: a valid query whose parameters match no granules (the catalog
answers an empty final page) makes `avail_granules` succeed with the empty
granule set rather than raise an error. -/
theorem avail_granules_empty (pages : Nat → PageResp) (fuel : Nat)
    (force : Bool) (h : pages 0 = .page [] false) :
    avail_granules pages (fuel + 1) force ⟨none⟩ =
      (.ok [], ⟨some []⟩, [.searchPage 0]) := by
  simp [avail_granules, fetchPages, h]

/-- C8 witness: a catalog with no matching granules yields a successful
empty search result. -/
theorem avail_granules_empty_witness :
    (fun _ => PageResp.page [] false) 0 = PageResp.page [] false ∧
      avail_granules (fun _ => PageResp.page [] false) 1 false ⟨none⟩ =
        (.ok [], ⟨some []⟩, [.searchPage 0]) :=
  ⟨rfl, avail_granules_empty (fun _ => PageResp.page [] false) 0 false rfl⟩

/-- C6 witness: requesting version 000 of a dataset whose known versions are
001 through 003 falls back to 003 with an `InvalidVersion` warning. -/
theorem resolveVersion_unknown_witness :
    "000" ∉ ["001", "002", "003"] ∧
      resolveVersion ["001", "002", "003"] "003" (some "000") =
        ("003", [WorkflowError.InvalidVersion]) :=
  ⟨by decide, resolveVersion_unknown ["001", "002", "003"] "003" "000" (by decide)⟩

/-- Helper: processing orders none of which carry a given id leaves the
local file count recorded for that id unchanged. -/
theorem downloadAll_localFiles_untouched (x : String)
    (os : List CompletedOrder) (st : DlState)
    (hx : ∀ o ∈ os, o.oid ≠ x) :
    (downloadAll true st os).2.localFiles x = st.localFiles x := by
  induction os generalizing st with
  | nil => simp [downloadAll]
  | cons o os2 ih =>
    have hxo : o.oid ≠ x := hx o (List.mem_cons_self _ _)
    have hx2 : ∀ o2 ∈ os2, o2.oid ≠ x :=
      fun o2 ho2 => hx o2 (List.mem_cons_of_mem _ ho2)
    by_cases hm : o.oid ∈ st.manifest
    · have hskip : downloadOne true st o = ([], st) := by
        simp [downloadOne, hm]
      simpa [downloadAll, hskip] using ih st hx2
    · have hfetch : downloadOne true st o =
          ([.fetch o.oid, .unpack o.oid],
            { manifest := o.oid :: st.manifest
              localFiles :=
                fun i => if i = o.oid then o.nfiles else st.localFiles i }) := by
        simp [downloadOne, hm]
      rw [downloadAll, hfetch]
      rw [ih _ hx2]
      have hne : x ≠ o.oid := fun h => hxo h.symm
      simp [hne]

/-- Helper: the actions emitted by a resume=True download are exactly a
fetch and an unpack per order not marked in the manifest. -/
theorem downloadAll_resume_actions (orders : List CompletedOrder)
    (st : DlState) (hnd : (orders.map CompletedOrder.oid).Nodup) :
    (downloadAll true st orders).1 =
      (orders.filter (fun o => o.oid ∉ st.manifest)).flatMap
        (fun o => [DlAction.fetch o.oid, DlAction.unpack o.oid]) := by
  induction orders generalizing st with
  | nil => simp [downloadAll]
  | cons o os ih =>
    simp only [List.map_cons, List.nodup_cons] at hnd
    obtain ⟨hno, hnd2⟩ := hnd
    have hid : ∀ o2 ∈ os, o2.oid ≠ o.oid := by
      intro o2 ho2 he
      exact hno (he ▸ List.mem_map_of_mem _ ho2)
    by_cases hm : o.oid ∈ st.manifest
    · have hskip : downloadOne true st o = ([], st) := by
        simp [downloadOne, hm]
      simp [downloadAll, hskip, ih st hnd2, List.filter_cons, hm]
    · have hfetch : downloadOne true st o =
          ([.fetch o.oid, .unpack o.oid],
            { manifest := o.oid :: st.manifest
              localFiles :=
                fun i => if i = o.oid then o.nfiles else st.localFiles i }) := by
        simp [downloadOne, hm]
      have hih := ih (⟨o.oid :: st.manifest,
        fun i => if i = o.oid then o.nfiles else st.localFiles i⟩ : DlState) hnd2
      have hfilter : os.filter
          (fun o2 => o2.oid ∉ ((⟨o.oid :: st.manifest,
            fun i => if i = o.oid then o.nfiles
              else st.localFiles i⟩ : DlState)).manifest) =
          os.filter (fun o2 => o2.oid ∉ st.manifest) := by
        apply List.filter_congr
        intro o2 ho2
        simp [List.mem_cons, hid o2 ho2]
      rw [hfilter] at hih
      rw [downloadAll, hfetch]
      simp [hih, List.filter_cons, hm]

/-- Helper: after a resume=True download, every order not initially marked
in the manifest ends with all of its files unpacked locally. -/
theorem downloadAll_resume_localFiles (orders : List CompletedOrder)
    (st : DlState) (hnd : (orders.map CompletedOrder.oid).Nodup) :
    ∀ o ∈ orders, o.oid ∉ st.manifest →
      (downloadAll true st orders).2.localFiles o.oid = o.nfiles := by
  induction orders generalizing st with
  | nil => simp
  | cons o os ih =>
    simp only [List.map_cons, List.nodup_cons] at hnd
    obtain ⟨hno, hnd2⟩ := hnd
    have hid : ∀ o2 ∈ os, o2.oid ≠ o.oid := by
      intro o2 ho2 he
      exact hno (he ▸ List.mem_map_of_mem _ ho2)
    intro o2 ho2 hm2
    by_cases hm : o.oid ∈ st.manifest
    · have hskip : downloadOne true st o = ([], st) := by
        simp [downloadOne, hm]
      rcases List.mem_cons.mp ho2 with he | ho2'
      · subst he
        exact absurd hm hm2
      · simpa [downloadAll, hskip] using ih st hnd2 o2 ho2' hm2
    · have hfetch : downloadOne true st o =
          ([.fetch o.oid, .unpack o.oid],
            { manifest := o.oid :: st.manifest
              localFiles :=
                fun i => if i = o.oid then o.nfiles else st.localFiles i }) := by
        simp [downloadOne, hm]
      rcases List.mem_cons.mp ho2 with he | ho2'
      · subst he
        rw [downloadAll, hfetch]
        rw [downloadAll_localFiles_untouched o2.oid os _ hid]
        simp
      · have hne : o2.oid ≠ o.oid := hid o2 ho2'
        have hm2b : o2.oid ∉ o.oid :: st.manifest := by
          simp [List.mem_cons, hne, hm2]
        rw [downloadAll, hfetch]
        exact ih _ hnd2 o2 ho2' hm2b

/-- C1: under resume=True, over any set of completed orders (distinct order
ids) and any manifest: the emitted actions are exactly a full fetch and
unpack for each order not marked retrieved in the manifest, in order — so
manifest-marked orders are skipped entirely (no fetch, no unpack) — and
every unmarked order, partially downloaded or not, is re-fetched from
scratch in its entirety, ending with all of its files unpacked locally. -/
theorem downloadAll_resume (orders : List CompletedOrder) (st : DlState)
    (hnd : (orders.map CompletedOrder.oid).Nodup) :
    (downloadAll true st orders).1 =
      (orders.filter (fun o => o.oid ∉ st.manifest)).flatMap
        (fun o => [DlAction.fetch o.oid, DlAction.unpack o.oid]) ∧
    ∀ o ∈ orders, o.oid ∉ st.manifest →
      (downloadAll true st orders).2.localFiles o.oid = o.nfiles :=
  ⟨downloadAll_resume_actions orders st hnd,
    downloadAll_resume_localFiles orders st hnd⟩

/-- C1 witness: three orders — A marked retrieved in the manifest, B
partially downloaded (3 of its 5 files present, not in the manifest), C not
started — under resume=True: A is skipped entirely, B and C are each fully
fetched and unpacked, and B ends with all 5 files present. -/
theorem downloadAll_resume_witness :
    ([⟨"A", 4⟩, ⟨"B", 5⟩, ⟨"C", 2⟩].map CompletedOrder.oid).Nodup ∧
      (downloadAll true
          ⟨["A"], fun i => if i = "B" then 3 else if i = "A" then 4 else 0⟩
          [⟨"A", 4⟩, ⟨"B", 5⟩, ⟨"C", 2⟩]).1 =
        [DlAction.fetch "B", DlAction.unpack "B",
          DlAction.fetch "C", DlAction.unpack "C"] ∧
      (downloadAll true
          ⟨["A"], fun i => if i = "B" then 3 else if i = "A" then 4 else 0⟩
          [⟨"A", 4⟩, ⟨"B", 5⟩, ⟨"C", 2⟩]).2.localFiles "B" = 5 := by
  have h := downloadAll_resume [⟨"A", 4⟩, ⟨"B", 5⟩, ⟨"C", 2⟩]
    ⟨["A"], fun i => if i = "B" then 3 else if i = "A" then 4 else 0⟩
    (by decide)
  refine ⟨by decide, ?_, ?_⟩
  · rw [h.1]
    rfl
  · exact h.2 ⟨"B", 5⟩ (by decide) (by decide)

/-- C4 counterexample: when the prior wanted set already contains a path
matched by the pair, append followed by remove of the same pair deletes that
path as well, so the result is not the prior set plus the structural
variables. -/
theorem appendRemove_not_inverse :
    removeVars ["latitude"] []
        (appendVars {("gt1l", "latitude")} ["latitude"] []
          {("gt1l", "latitude")}) ≠
      {("gt1l", "latitude")} ∪ structuralVars := by
  decide

/-- C4 (amended): for every wanted set W none of whose non-structural
entries match the var_list/beam_list pair, and every pair matching at least
one available path, append with the pair followed by remove with the same
pair yields exactly W together with the auto-included structural variables,
which remain because they are not removable individually. -/
theorem appendRemove_restores (avail W : Finset (String × String))
    (vl bl : List String)
    (hM : matchedPaths avail vl bl ≠ ∅)
    (hW : ∀ p ∈ W, matchesPair vl bl p = true → p ∈ structuralVars) :
    removeVars vl bl (appendVars avail vl bl W) = W ∪ structuralVars := by
  ext p
  simp only [removeVars, appendVars, if_neg hM, Finset.mem_filter,
    Finset.mem_union]
  constructor
  · rintro ⟨hmem, hrem⟩
    rcases hrem with hfalse | hs
    · rcases hmem with (hW1 | hMm) | hS
      · exact Or.inl hW1
      · have hmatch := (Finset.mem_filter.mp hMm).2
        rw [hfalse] at hmatch
        exact absurd hmatch (by simp)
      · exact Or.inr hS
    · exact Or.inr hs
  · rintro (hW1 | hS)
    · refine ⟨Or.inl (Or.inl hW1), ?_⟩
      by_cases hb : matchesPair vl bl p = true
      · exact Or.inr (hW p hW1 hb)
      · exact Or.inl (by simpa using hb)
    · exact ⟨Or.inr hS, Or.inr hS⟩

/-- C4 witness: with latitude and longitude available on beam gt1l and a
prior wanted set holding only the non-matching longitude path, append then
remove of the latitude pair returns the wanted set to its prior state plus
the structural variables. -/
theorem appendRemove_restores_witness :
    matchedPaths {("gt1l", "latitude"), ("gt1l", "longitude")}
        ["latitude"] [] ≠ ∅ ∧
      (∀ p ∈ ({("gt1l", "longitude")} : Finset (String × String)),
        matchesPair ["latitude"] [] p = true → p ∈ structuralVars) ∧
      removeVars ["latitude"] []
          (appendVars {("gt1l", "latitude"), ("gt1l", "longitude")}
            ["latitude"] [] {("gt1l", "longitude")}) =
        {("gt1l", "longitude")} ∪ structuralVars :=
  ⟨by decide, by decide,
    appendRemove_restores {("gt1l", "latitude"), ("gt1l", "longitude")}
      {("gt1l", "longitude")} ["latitude"] [] (by decide) (by decide)⟩

/-- C9: calling `download_granules` on an object with no order yet placed
submits the order first — the order requests it issues are exactly those a
direct `order_granules` call with the same parameters would issue — and
then downloads every placed order, so one download call completes the
query-to-download workflow. -/
theorem download_implies_order (s : WorkflowState)
    (Coverage : Option (Finset (String × String)))
    (h : s.orderIDs = []) :
    (download_granules s Coverage).2 = (order_granules s Coverage).2 ∧
    (download_granules s Coverage).1.orderIDs =
      (order_granules s Coverage).1.orderIDs ∧
    (download_granules s Coverage).1.downloaded =
      (order_granules s Coverage).1.orderIDs := by
  simp [download_granules, h]

/-- C9 witness: on the notebook data object, logged in with two found
granules and no order placed, a single download call places the order and
downloads it. -/
theorem download_implies_order_witness :
    sampleWorkflow.orderIDs = [] ∧
      ((download_granules sampleWorkflow none).2 =
        (order_granules sampleWorkflow none).2 ∧
      (download_granules sampleWorkflow none).1.orderIDs =
        (order_granules sampleWorkflow none).1.orderIDs ∧
      (download_granules sampleWorkflow none).1.downloaded =
        (order_granules sampleWorkflow none).1.orderIDs) :=
  ⟨rfl, download_implies_order sampleWorkflow none rfl⟩

/-- C10: the wanted-variable set has no effect on a submitted order unless
explicitly passed as the Coverage argument — two objects differing only in
the contents of order_vars.wanted, neither passing Coverage, build identical
subset parameters and submit identical order requests, whether ordered
directly or through download. -/
theorem wanted_noninterference (s : WorkflowState)
    (w1 w2 : Finset (String × String)) :
    subsetparams { s with order_vars := { s.order_vars with wanted := w1 } }
        none =
      subsetparams { s with order_vars := { s.order_vars with wanted := w2 } }
        none ∧
    (order_granules { s with order_vars := { s.order_vars with wanted := w1 } }
        none).2 =
      (order_granules { s with order_vars := { s.order_vars with wanted := w2 } }
        none).2 ∧
    (download_granules
        { s with order_vars := { s.order_vars with wanted := w1 } } none).2 =
      (download_granules
        { s with order_vars := { s.order_vars with wanted := w2 } } none).2 := by
  refine ⟨rfl, ?_, ?_⟩
  · by_cases hl : s.loggedIn = false <;> simp [order_granules, subsetparams, hl]
  · by_cases hl : s.loggedIn = false <;>
      by_cases hc : s.orderIDs.isEmpty <;>
        simp [download_granules, order_granules, subsetparams, hl, hc]

end Icepyx
